import Mathlib

/-!
Verification development for the News-Restructure query-processing core.

Shallow embedding of:
- `src/application/agents/query_processor_agent.py` (QueryProcessorAgent)
- `src/application/agents/query_router_agent.py` (QueryRouterSchema, QueryRouterAgent)
- `src/infrastructure/storage/vector/chroma_client.py` (ChromaDBClient._format_results)
- `src/infrastructure/storage/mongodb/article_repository.py` (get_articles_by_ids)
- `src/configuration/settings.py` (MongoDBConfig.max_filter_ids)

Floats are modelled by rationals; Python dict-shaped MongoDB filters by
association lists; the document store and vector index are modelled as an
explicit environment (a list of stored articles and a fixed similarity
ranking for the query embedding at hand).
-/

namespace NewsRestructure

/-- `src/domain/models/entities.py` `QueryIntent`: query routing strategy types. -/
inductive QueryIntent where
  | DIRECT_ENTITY
  | SECTOR_WIDE
  | REGULATORY
  | SENTIMENT_DRIVEN
  | CROSS_IMPACT
  | SEMANTIC_SEARCH
  | TEMPORAL
deriving DecidableEq, Repr

/-- `src/domain/models/sentiment.py` `SentimentData`, restricted to the two
fields the query core reads from the stored sentiment dict:
`classification` and `signal_strength`. -/
structure SentimentData where
  classification : String
  signalStrength : ℚ
deriving DecidableEq, Repr

/-- `src/domain/models/article.py` `NewsArticle`, restricted to the fields the
query core reads. `companies`/`sectors`/`regulators` are the legacy
`entities` dict entries (`Companies`/`Sectors`/`Regulators`, defaulting to the
empty list when the dict is absent or lacks the key);
`impactedStockSymbols` is `[s["symbol"] for s in impacted_stocks]`;
`hasCrossImpacts` is `bool(article.cross_impacts)`. The three score fields
are the transient attributes attached at query time (Python `getattr`
default `0.0`). -/
structure Article where
  id : String
  companies : List String
  sectors : List String
  regulators : List String
  impactedStockSymbols : List String
  sentiment : Option SentimentData
  hasCrossImpacts : Bool
  relevanceScore : ℚ := 0
  strategyScore : ℚ := 0
  finalScore : ℚ := 0
deriving DecidableEq, Repr

/-- `src/domain/models/query.py` `QueryRouting` (strategy_metadata is carried
separately in the processor result below, mirroring that it is attached only
after execution). -/
structure QueryRouting where
  entities : List String
  sectors : List String
  stockSymbols : List String
  sentimentFilter : Option String
  refinedQuery : String
  strategy : QueryIntent
  confidence : ℚ
  reasoning : String
  regulators : List String := []
  temporalScope : Option String := none
deriving DecidableEq, Repr

/-- Python truthiness of an optional string: `None` and `""` are falsy
(`if sentiment_filter:` in `process_query`). -/
def pyTruthyStr : Option String → Bool
  | none => false
  | some s => !(s == "")

/-- Python `str.strip()` on a character list: drop whitespace from both
ends. -/
def trimChars (cs : List Char) : List Char :=
  ((cs.dropWhile Char.isWhitespace).reverse.dropWhile Char.isWhitespace).reverse

/-- Python `str.strip()`. -/
def pyStrip (s : String) : String := ⟨trimChars s.data⟩

/-- Python `str.upper()` (ASCII case mapping suffices for this corpus). -/
def pyUpper (s : String) : String := ⟨s.data.map Char.toUpper⟩

/-- Python `str.lower()` (ASCII case mapping suffices for this corpus). -/
def pyLower (s : String) : String := ⟨s.data.map Char.toLower⟩

/-- A scalar condition in a MongoDB filter: direct equality value or an
`\x7b"$in": [...]\x7d` membership clause. -/
inductive SVal where
  | eq : String → SVal
  | inL : List String → SVal
deriving DecidableEq, Repr

/-- A flat MongoDB filter document (string keys to scalar conditions),
as produced for the sub-documents of an `$and`. -/
abbrev SimpleFilter := List (String × SVal)

/-- A MongoDB filter value: a scalar condition or an `$and` list of
sub-documents (the only shapes this code produces). -/
inductive MVal where
  | s : SVal → MVal
  | andD : List SimpleFilter → MVal
deriving DecidableEq, Repr

/-- A MongoDB filter document as a Python dict: an association list
preserving insertion order. -/
abbrev MongoFilter := List (String × MVal)

/-- Python dict key assignment `d[k] = v`: overwrite in place if the key
exists, otherwise append. -/
def dictSet (d : MongoFilter) (k : String) (v : MVal) : MongoFilter :=
  if d.any (fun p => p.1 == k) then
    d.map (fun p => if p.1 == k then (k, v) else p)
  else d ++ [(k, v)]

/-- Python dict lookup `d.get(k)`. -/
def dictGet (d : MongoFilter) (k : String) : Option MVal :=
  (d.find? (fun p => p.1 == k)).map (fun p => p.2)

/-- `QueryRouterAgent.generate_mongodb_filter`
(`query_router_agent.py`, lines 193-317): compile a routing result into a
MongoDB filter document. -/
def generateMongodbFilter (routing : QueryRouting) : MongoFilter :=
  match routing.strategy with
  | .DIRECT_ENTITY =>
    if routing.stockSymbols ≠ [] then
      if routing.stockSymbols.length = 1 then
        [("impacted_stocks.symbol", .s (.eq (routing.stockSymbols.headD "")))]
      else
        [("impacted_stocks.symbol", .s (.inL routing.stockSymbols))]
    else if routing.entities ≠ [] then
      if routing.entities.length = 1 then
        [("entities.Companies", .s (.eq (routing.entities.headD "")))]
      else
        [("entities.Companies", .s (.inL routing.entities))]
    else []
  | .SECTOR_WIDE =>
    if routing.sectors ≠ [] then
      if routing.sectors.length = 1 then
        [("entities.Sectors", .s (.eq (routing.sectors.headD "")))]
      else
        [("entities.Sectors", .s (.inL routing.sectors))]
    else []
  | .REGULATORY =>
    if routing.regulators ≠ [] then
      if routing.regulators.length = 1 then
        [("entities.Regulators", .s (.eq (routing.regulators.headD "")))]
      else
        [("entities.Regulators", .s (.inL routing.regulators))]
    else []
  | .SENTIMENT_DRIVEN =>
    if pyTruthyStr routing.sentimentFilter then
      let baseFilter : SimpleFilter :=
        [("sentiment.classification", .eq (routing.sentimentFilter.getD ""))]
      if routing.sectors ≠ [] then
        if routing.sectors.length = 1 then
          [("$and", .andD [baseFilter,
            [("entities.Sectors", .eq (routing.sectors.headD ""))]])]
        else
          [("$and", .andD [baseFilter,
            [("entities.Sectors", .inL routing.sectors)]])]
      else
        baseFilter.map (fun p => (p.1, MVal.s p.2))
    else []
  | .CROSS_IMPACT =>
    if routing.sectors.length ≥ 2 then
      [("entities.Sectors", .s (.inL routing.sectors))]
    else if routing.sectors ≠ [] then
      [("entities.Sectors", .s (.eq (routing.sectors.headD "")))]
    else []
  | .TEMPORAL =>
    if routing.stockSymbols ≠ [] then
      if routing.stockSymbols.length = 1 then
        [("impacted_stocks.symbol", .s (.eq (routing.stockSymbols.headD "")))]
      else
        [("impacted_stocks.symbol", .s (.inL routing.stockSymbols))]
    else if routing.entities ≠ [] then
      if routing.entities.length = 1 then
        [("entities.Companies", .s (.eq (routing.entities.headD "")))]
      else
        [("entities.Companies", .s (.inL routing.entities))]
    else []
  | .SEMANTIC_SEARCH => []

/-- The list of values an article document holds at a MongoDB field path
(array fields yield all their elements; scalar fields a singleton). -/
def docFieldValues (a : Article) : String → List String
  | "impacted_stocks.symbol" => a.impactedStockSymbols
  | "entities.Companies" => a.companies
  | "entities.Sectors" => a.sectors
  | "entities.Regulators" => a.regulators
  | "sentiment.classification" =>
      match a.sentiment with
      | some sd => [sd.classification]
      | none => []
  | "id" => [a.id]
  | _ => []

/-- MongoDB matching of one scalar condition against a field: equality on an
array field matches when any element equals the value; `$in` matches when
any element is in the given list. -/
def matchSVal (a : Article) (k : String) : SVal → Bool
  | .eq v => (docFieldValues a k).contains v
  | .inL vs => (docFieldValues a k).any (fun x => vs.contains x)

/-- MongoDB matching of a flat filter document (top-level keys are ANDed). -/
def matchesSimple (a : Article) (f : SimpleFilter) : Bool :=
  f.all (fun p => matchSVal a p.1 p.2)

/-- MongoDB matching of a filter document, including `$and` clauses. -/
def matchesFilter (a : Article) (f : MongoFilter) : Bool :=
  f.all (fun p =>
    match p.2 with
    | .s v => matchSVal a p.1 v
    | .andD ds => ds.all (fun d => matchesSimple a d))

/-- `src/configuration/settings.py` line 45: `max_filter_ids: int = 1000`. -/
def defaultMaxFilterIds : ℕ := 1000

/-- A vector-index hit as returned by `ChromaDBClient._format_results`
(after converting distance to similarity). -/
structure VectorHit where
  articleId : String
  similarity : ℚ
deriving DecidableEq, Repr

/-- The external collaborators of `process_query` for one query: the MongoDB
collection contents and the vector index`s full similarity ranking for the
query embedding (searches return prefixes of it). -/
structure Env where
  docs : List Article
  ranking : List VectorHit
  maxFilterIds : ℕ := defaultMaxFilterIds

/-- `collection.count_documents(filter)`. -/
def countDocuments (env : Env) (f : MongoFilter) : ℕ :=
  (env.docs.filter (fun a => matchesFilter a f)).length

/-- `ChromaDBClient.search`: unrestricted vector search returning the top
`top_k` of the ranking. -/
def vectorSearch (env : Env) (topK : ℕ) : List VectorHit :=
  env.ranking.take topK

/-- `ChromaDBClient.search_by_ids`: empty id list returns `[]`; otherwise the
index is restricted to the given ids with `n_results = min(top_k, len(ids))`. -/
def searchByIds (env : Env) (articleIds : List String) (topK : ℕ) : List VectorHit :=
  if articleIds = [] then []
  else (env.ranking.filter (fun h => articleIds.contains h.articleId)).take
    (min topK articleIds.length)

/-- `ArticleRepository.get_articles_by_ids` (`article_repository.py`, lines
46-52): builds an id → article dict from the matching cursor (later documents
overwrite earlier ones) and returns articles in the requested id order,
dropping ids with no document. -/
def getArticlesByIds (env : Env) (articleIds : List String) : List Article :=
  if articleIds = [] then []
  else articleIds.filterMap (fun aid => env.docs.reverse.find? (fun d => d.id == aid))

/-- `ChromaDBClient._format_results` output shape. -/
structure VectorCandidate where
  articleId : String
  similarity : ℚ
  distance : ℚ
deriving DecidableEq, Repr

/-- `ChromaDBClient._format_results` (`chroma_client.py`, lines 110-127) on
the first (and only) query of the batch: empty ids yield `[]`; otherwise each
id is paired with its reported cosine distance and
`similarity = 1 - distance`. -/
def formatResults (ids : List String) (distances : List ℚ) : List VectorCandidate :=
  if ids = [] then []
  else (ids.zip distances).map (fun p => ⟨p.1, 1 - p.2, p.2⟩)

/-! ## Routing Classifier (`query_router_agent.py`) -/

/-- `QueryRouterSchema`: the raw structured output the LLM returns, before
pydantic field validation. -/
structure RawRouterOutput where
  strategy : QueryIntent
  entities : List String
  stockSymbols : List String
  sectors : List String
  regulators : List String
  sentimentFilter : Option String
  temporalScope : Option String
  refinedQuery : String
  confidence : ℚ
  reasoning : String
deriving DecidableEq, Repr

/-- `QueryRouterSchema.validate_sentiment_filter` (lines 63-70): a present
value must be one of the three enum strings, otherwise a `ValueError` is
raised (becoming a pydantic `ValidationError`). -/
def validateSentimentFilter (v : Option String) : Except String (Option String) :=
  match v with
  | none => .ok none
  | some s =>
    if s = "Bullish" ∨ s = "Bearish" ∨ s = "Neutral" then .ok (some s)
    else .error "Sentiment filter must be one of [Bullish, Bearish, Neutral]"

/-- `QueryRouterSchema.validate_list_fields` (lines 72-75):
`[item.strip() for item in v if item and len(item.strip()) > 0]`. -/
def validateListFields (v : List String) : List String :=
  v.filterMap (fun item =>
    if item ≠ "" ∧ pyStrip item ≠ "" then some (pyStrip item) else none)

/-- `QueryRouterSchema.validate_refined_query` (lines 77-82). -/
def validateRefinedQuery (v : String) : Except String String :=
  if v = "" ∨ (pyStrip v).length < 3 then
    .error "Refined query must be at least 3 characters"
  else .ok (pyStrip v)

/-- Pydantic validation of `QueryRouterSchema` (`model_validate`): run the
declared field validators and the `confidence` bounds (`ge=0.0, le=1.0`);
any failure is a `ValidationError`, carried here as `Except.error`. -/
def modelValidate (raw : RawRouterOutput) : Except String RawRouterOutput :=
  let entities := validateListFields raw.entities
  let stockSymbols := validateListFields raw.stockSymbols
  let sectors := validateListFields raw.sectors
  let regulators := validateListFields raw.regulators
  match validateSentimentFilter raw.sentimentFilter with
  | .error e => .error e
  | .ok sentimentFilter =>
    match validateRefinedQuery raw.refinedQuery with
    | .error e => .error e
    | .ok refinedQuery =>
      if raw.confidence < 0 ∨ 1 < raw.confidence then
        .error "Confidence must be between 0 and 1"
      else
        .ok { raw with
          entities := entities, stockSymbols := stockSymbols,
          sectors := sectors, regulators := regulators,
          sentimentFilter := sentimentFilter, refinedQuery := refinedQuery }

/-- The case-insensitive seen-set deduplication loop used by
`QueryRouterAgent._validate_and_enrich` for entities, sectors and regulators
(keeps the first-seen entry, stripped, skipping entries whose lowered
stripped form is empty or already seen). -/
def dedupCaseInsensitive (items : List String) : List String :=
  (items.foldl
    (fun (acc : List String × List String) item =>
      let itemLower := pyStrip (pyLower item)
      if itemLower ≠ "" ∧ ¬ acc.2.contains itemLower then
        (acc.1 ++ [pyStrip item], acc.2 ++ [itemLower])
      else acc)
    ([], [])).1

/-- `QueryRouterAgent._validate_and_enrich` (lines 103-143). The stock-symbol
line is `list(set(s.upper().strip() for s in raw_result.stock_symbols if s))`:
a Python `set` whose iteration order is not specified, modelled by the
parameter `setOrder`, an arbitrary reordering applied to the deduplicated
contents (CPython's order depends on randomized string hashing). -/
def validateAndEnrich (setOrder : List String → List String)
    (r : RawRouterOutput) : RawRouterOutput :=
  let entities := dedupCaseInsensitive r.entities
  let stockSymbols :=
    setOrder (((r.stockSymbols.filter (fun s => s ≠ "")).map
      (fun s => pyStrip (pyUpper s))).dedup)
  let sectors := dedupCaseInsensitive r.sectors
  let regulators := dedupCaseInsensitive r.regulators
  let refinedQuery :=
    if pyStrip r.refinedQuery = "" then
      match entities with
      | e :: _ => e
      | [] => "financial news"
    else r.refinedQuery
  { r with
    entities := entities, stockSymbols := stockSymbols,
    sectors := sectors, regulators := regulators,
    refinedQuery := refinedQuery }

/-- The two failure classes of `route_query`: a `ValueError`/pydantic
`ValidationError` surfaced directly (caller fault, the spec taxonomy
`ValidationError`), and `LLMServiceError` (the spec taxonomy `ServiceError`,
from `src/infrastructure/llm/base.py`). -/
inductive RouteErr where
  | validationError (msg : String)
  | llmServiceError (msg : String)
deriving DecidableEq, Repr

/-- The `QueryRouting` dataclass built at the end of `route_query`
(lines 175-186). -/
def toQueryRouting (v : RawRouterOutput) : QueryRouting :=
  { entities := v.entities
    sectors := v.sectors
    stockSymbols := v.stockSymbols
    sentimentFilter := v.sentimentFilter
    refinedQuery := v.refinedQuery
    strategy := v.strategy
    confidence := v.confidence
    reasoning := v.reasoning
    regulators := v.regulators
    temporalScope := v.temporalScope }

/-- `QueryRouterAgent.route_query` (lines 145-191) given the structured value
the LLM produced. The empty-query `ValueError` is raised before the `try`
block; everything inside the `try` — including the pydantic validation of the
schema — is caught by `except Exception` and re-raised as
`LLMServiceError(f"Query routing failed: ...")`. -/
def routeQuery (setOrder : List String → List String) (query : String)
    (llmOutput : RawRouterOutput) : Except RouteErr QueryRouting :=
  if query = "" ∨ pyStrip query = "" then
    .error (.validationError "Query cannot be empty")
  else
    match modelValidate llmOutput with
    | .error e => .error (.llmServiceError ("Query routing failed: " ++ e))
    | .ok raw => .ok (toQueryRouting (validateAndEnrich setOrder raw))

/-! ## Reranker (`query_processor_agent.py`, lines 215-355) -/

/-- `QueryProcessorAgent._calculate_strategy_score` (lines 247-343), with the
article entity access normalized to the legacy dict shape encoded in
`Article`. -/
def calculateStrategyScore (article : Article) (routing : QueryRouting) : ℚ :=
  match routing.strategy with
  | .DIRECT_ENTITY =>
    let companyMatch := routing.entities.any (fun e =>
      article.companies.any (fun c => pyLower c == pyLower e))
    let articleStocks := article.impactedStockSymbols.map (fun s => pyUpper s)
    let stockMatch := routing.stockSymbols.any (fun sy =>
      articleStocks.contains (pyUpper sy))
    if companyMatch || stockMatch then 1 else 0
  | .SECTOR_WIDE =>
    let sectorMatch := routing.sectors.any (fun s =>
      article.sectors.any (fun t => pyLower t == pyLower s))
    if sectorMatch then 4/5 else 0
  | .REGULATORY =>
    let regulatorMatch := routing.regulators.any (fun r =>
      article.regulators.any (fun t => pyLower t == pyLower r))
    if regulatorMatch then 1 else 0
  | .SENTIMENT_DRIVEN =>
    match article.sentiment with
    | some sd =>
      let sentimentMatch := routing.sentimentFilter == some sd.classification
      if sentimentMatch then
        if routing.sectors ≠ [] ∧ routing.sectors.any (fun s =>
            article.sectors.any (fun t => pyLower t == pyLower s)) then 9/10
        else 7/10
      else 0
    | none => 0
  | .CROSS_IMPACT =>
    if article.hasCrossImpacts then 4/5 else 1/2
  | .SEMANTIC_SEARCH => 3/10
  | .TEMPORAL => 3/10

/-- `QueryProcessorAgent._apply_sentiment_boost` (lines 345-355):
`score * (1.0 + sentiment_signal / 200.0)`. -/
def applySentimentBoost (score : ℚ) (sentimentSignal : ℚ) : ℚ :=
  score * (1 + sentimentSignal / 200)

/-- The per-article body of the loop in `_rerank_articles` (lines 223-242):
blend semantic and strategy scores 50/50, boost when the article carries
sentiment data (`signal_strength` read with dict default `0.0` is the stored
field), cap the final score at `1.0`, and record the strategy score. -/
def scoreArticle (routing : QueryRouting) (article : Article) : Article :=
  let semanticScore := article.relevanceScore
  let strategyScore := calculateStrategyScore article routing
  let baseScore := semanticScore * (1/2) + strategyScore * (1/2)
  let boosted :=
    match article.sentiment with
    | some sd => applySentimentBoost baseScore sd.signalStrength
    | none => baseScore
  { article with finalScore := min boosted 1, strategyScore := strategyScore }

/-- The comparison realized by
`sorted(articles, key=lambda x: x.final_score, reverse=True)`:
`a` may come before `b` iff `b.final_score ≤ a.final_score`. -/
def finalDesc (a b : Article) : Bool := decide (b.finalScore ≤ a.finalScore)

/-- `QueryProcessorAgent._rerank_articles` (lines 215-245): score every
article, then stable-sort descending by final score (Python's `sorted` is
stable; `reverse=True` flips comparisons but keeps ties in input order). -/
def rerankArticles (articles : List Article) (routing : QueryRouting) :
    List Article :=
  (articles.map (scoreArticle routing)).mergeSort finalDesc

/-- The Python dict comprehension score map of `_attach_scores`
(lines 195-213): on duplicate ids the later entry wins; missing ids default
to `0.0`. -/
def scoreMapGet (vr : List VectorHit) (aid : String) : ℚ :=
  match vr.reverse.find? (fun h => h.articleId == aid) with
  | some h => h.similarity
  | none => 0

/-- `QueryProcessorAgent._attach_scores`: attach each article`s similarity
from the vector results. -/
def attachScores (articles : List Article) (vr : List VectorHit) :
    List Article :=
  articles.map (fun a => { a with relevanceScore := scoreMapGet vr a.id })

/-! ## Strategy Selector & Executor (`query_processor_agent.py`, lines 49-193) -/

/-- `QueryExecutionStrategy`: the three execution paths of `process_query`. -/
inductive Strategy where
  | vector_search_fallback
  | mongo_filter_first
  | vector_search_first
deriving DecidableEq, Repr

/-- The `if filtered_count == 0 / elif filtered_count <= max_filter_ids /
else` chain of `process_query` (lines 83, 123, 141). -/
def selectStrategy (filteredCount maxFilterIds : ℕ) : Strategy :=
  if filteredCount = 0 then .vector_search_fallback
  else if filteredCount ≤ maxFilterIds then .mongo_filter_first
  else .vector_search_first

/-- `process_query` steps 2-4 (lines 60-80): override the routing`s sentiment
filter when a truthy override is supplied. -/
def overrideRouting (routing : QueryRouting) (sentimentFilter : Option String) :
    QueryRouting :=
  if pyTruthyStr sentimentFilter then
    { routing with sentimentFilter := sentimentFilter }
  else routing

/-- `process_query` steps 3-4 plus the sentiment-only relaxation (lines
63-80): compile the filter from the (already overridden) routing, force the
`sentiment.classification` clause when the override is truthy, count, and on
a zero count with a truthy override relax to the sentiment-only filter and
recount. Returns the filter and count used by the strategy branch. -/
def resolveFilterAndCount (env : Env) (routing : QueryRouting)
    (sentimentFilter : Option String) : MongoFilter × ℕ :=
  let mongodbFilter := generateMongodbFilter routing
  let mongodbFilter :=
    if pyTruthyStr sentimentFilter then
      dictSet mongodbFilter "sentiment.classification"
        (.s (.eq (sentimentFilter.getD "")))
    else mongodbFilter
  let filteredCount := countDocuments env mongodbFilter
  if filteredCount = 0 ∧ pyTruthyStr sentimentFilter then
    let f2 : MongoFilter :=
      [("sentiment.classification", .s (.eq (sentimentFilter.getD "")))]
    (f2, countDocuments env f2)
  else (mongodbFilter, filteredCount)

/-- The `vector_search_fallback` branch (lines 83-121): unrestricted search
for `2*top_k` candidates; with a truthy override, post-filter the candidates
against MongoDB on the override sentiment and truncate to `2*top_k`. -/
def fallbackResults (env : Env) (topK : ℕ) (sentimentFilter : Option String) :
    List VectorHit :=
  let vr := vectorSearch env (topK * 2)
  if pyTruthyStr sentimentFilter then
    let candidateIds := vr.map (fun r => r.articleId)
    let validIds := (env.docs.filter (fun d => matchesFilter d
      [("id", .s (.inL candidateIds)),
       ("sentiment.classification", .s (.eq (sentimentFilter.getD "")))])).map
      (fun d => d.id)
    (vr.filter (fun r => validIds.contains r.articleId)).take (topK * 2)
  else vr

/-- The `mongo_filter_first` branch (lines 123-139): project the filtered ids
from MongoDB and run the vector search restricted to them. -/
def mongoFilterFirstResults (env : Env) (mongodbFilter : MongoFilter)
    (topK : ℕ) : List VectorHit :=
  let filteredIds :=
    (env.docs.filter (fun d => matchesFilter d mongodbFilter)).map
      (fun d => d.id)
  searchByIds env filteredIds (topK * 2)

/-- The `vector_search_first` branch (lines 141-169): unrestricted search for
`5*top_k` candidates, validate them against MongoDB with the filter plus an
id-membership clause, keep the validated ones and truncate to `2*top_k`. -/
def vectorSearchFirstResults (env : Env) (mongodbFilter : MongoFilter)
    (topK : ℕ) : List VectorHit :=
  let vr := vectorSearch env (topK * 5)
  let candidateIds := vr.map (fun r => r.articleId)
  let validationFilter := dictSet mongodbFilter "id" (.s (.inL candidateIds))
  let validIds :=
    (env.docs.filter (fun d => matchesFilter d validationFilter)).map
      (fun d => d.id)
  (vr.filter (fun r => validIds.contains r.articleId)).take (topK * 2)

/-- The branch dispatch of `process_query` over the final filtered count. -/
def computeVectorResults (env : Env) (mongodbFilter : MongoFilter)
    (filteredCount topK : ℕ) (sentimentFilter : Option String) :
    List VectorHit :=
  if filteredCount = 0 then fallbackResults env topK sentimentFilter
  else if filteredCount ≤ env.maxFilterIds then
    mongoFilterFirstResults env mongodbFilter topK
  else vectorSearchFirstResults env mongodbFilter topK

/-- The `strategy_metadata` dict written at lines 185-191 (the earlier
fallback-branch metadata of lines 115-121 is overwritten by this one before
returning). -/
structure StrategyMetadata where
  strategyUsed : Strategy
  filteredCount : ℕ
  vectorCandidates : ℕ
  mongodbFilterApplied : Bool
  threshold : ℕ
deriving DecidableEq, Repr

/-- What `process_query` returns: the top-k articles and the routing (with
its attached strategy metadata, carried as a separate field here). -/
structure ProcResult where
  articles : List Article
  routing : QueryRouting
  meta : StrategyMetadata
deriving DecidableEq, Repr

/-- `QueryProcessorAgent.process_query` (lines 49-193), given the routing
result the router produced for the query. -/
def processQuery (env : Env) (routing0 : QueryRouting) (topK : ℕ)
    (sentimentFilter : Option String) : ProcResult :=
  let routing := overrideRouting routing0 sentimentFilter
  let fc := resolveFilterAndCount env routing sentimentFilter
  let mongodbFilter := fc.1
  let filteredCount := fc.2
  let strategyUsed := selectStrategy filteredCount env.maxFilterIds
  let vectorResults :=
    computeVectorResults env mongodbFilter filteredCount topK sentimentFilter
  let articleIds := vectorResults.map (fun r => r.articleId)
  let fullArticles := getArticlesByIds env articleIds
  let scored := attachScores fullArticles vectorResults
  let reranked := rerankArticles scored routing
  let finalArticles := reranked.take topK
  { articles := finalArticles
    routing := routing
    meta :=
      { strategyUsed := strategyUsed
        filteredCount := filteredCount
        vectorCandidates := vectorResults.length
        mongodbFilterApplied := !mongodbFilter.isEmpty
        threshold := env.maxFilterIds } }

/-! ## Concrete inputs used by the witnesses -/

/-- A concrete routing result: DIRECT_ENTITY on TCS. -/
def routingW : QueryRouting :=
  { entities := ["Tata Consultancy Services"]
    sectors := ["IT"]
    stockSymbols := ["TCS"]
    sentimentFilter := none
    refinedQuery := "TCS quarterly results"
    strategy := .DIRECT_ENTITY
    confidence := 9/10
    reasoning := "direct entity query" }

/-- A concrete stored article: impacted stock TCS, Bearish sentiment. -/
def articleW : Article :=
  { id := "a1"
    companies := ["Tata Consultancy Services"]
    sectors := ["IT"]
    regulators := []
    impactedStockSymbols := ["TCS"]
    sentiment := some { classification := "Bearish", signalStrength := 60 }
    hasCrossImpacts := false }

/-- A concrete environment: one stored article and a one-hit ranking. -/
def envW : Env :=
  { docs := [articleW]
    ranking := [{ articleId := "a1", similarity := 1 }] }

/-! ## Theorems -/

/-- C1: Strategy branch selection in `process_query` is total and mutually
exclusive over the final filtered count: `vector_search_fallback` exactly
when it is `0`, `mongo_filter_first` exactly when it is positive and at most
`max_filter_ids` (default `1000`), `vector_search_first` exactly when it
exceeds `max_filter_ids`; and `process_query` reports exactly the strategy
this selection chooses for its final filtered count. -/
theorem strategy_selection_total_and_exclusive (env : Env)
    (routing : QueryRouting) (topK : ℕ) (ov : Option String) (fc m : ℕ) :
    (selectStrategy fc m = .vector_search_fallback ↔ fc = 0) ∧
    (selectStrategy fc m = .mongo_filter_first ↔ 0 < fc ∧ fc ≤ m) ∧
    (selectStrategy fc m = .vector_search_first ↔ m < fc) ∧
    (processQuery env routing topK ov).meta.strategyUsed
      = selectStrategy
          (resolveFilterAndCount env (overrideRouting routing ov) ov).2
          env.maxFilterIds ∧
    defaultMaxFilterIds = 1000 := by
  refine ⟨?_, ?_, ?_, rfl, rfl⟩ <;>
    (unfold selectStrategy; split_ifs <;> simp_all <;> omega)

/-- C10: Passing the empty string as the sentiment override is equivalent to
passing no override at all: every override check in `process_query` tests
Python truthiness, and `""` is falsy, so the whole result (articles, routing
including its sentiment filter, and strategy metadata) is identical. -/
theorem empty_string_override_is_no_override (env : Env)
    (routing0 : QueryRouting) (topK : ℕ) :
    processQuery env routing0 topK (some "")
      = processQuery env routing0 topK none ∧
    (processQuery env routing0 topK (some "")).routing.sentimentFilter
      = routing0.sentimentFilter := by
  constructor
  · rfl
  · rfl

/-- C3: Every article scored by the reranker comes from scoring an input
article; its final score is `min` of (0.5·semantic + 0.5·strategy), times
`1 + signal_strength/200` exactly when the article carries sentiment data,
and `1.0`; so the final score never exceeds `1.0`. -/
theorem reranker_final_score_formula (routing : QueryRouting)
    (arts : List Article) (a : Article)
    (h : a ∈ rerankArticles arts routing) :
    a.finalScore ≤ 1 ∧
    ∃ b ∈ arts, a = scoreArticle routing b ∧
      a.finalScore =
        min ((b.relevanceScore * (1/2) + calculateStrategyScore b routing * (1/2)) *
          (match b.sentiment with
           | some sd => 1 + sd.signalStrength / 200
           | none => 1)) 1 := by
  rw [rerankArticles, List.mem_mergeSort, List.mem_map] at h
  obtain ⟨b, hb, hab⟩ := h
  subst hab
  refine ⟨min_le_right _ _, b, hb, rfl, ?_⟩
  cases hs : b.sentiment with
  | none => simp [scoreArticle, hs]
  | some sd =>
    simp only [scoreArticle, hs, applySentimentBoost]

/-- The witness for C3: a concrete sentiment-carrying article run through the
reranker, with the hypothesis discharged on the concrete output. -/
theorem reranker_final_score_formula_witness :
    scoreArticle routingW articleW ∈ rerankArticles [articleW] routingW ∧
    ((scoreArticle routingW articleW).finalScore ≤ 1 ∧
      ∃ b ∈ [articleW], scoreArticle routingW articleW = scoreArticle routingW b ∧
        (scoreArticle routingW articleW).finalScore =
          min ((b.relevanceScore * (1/2) + calculateStrategyScore b routingW * (1/2)) *
            (match b.sentiment with
             | some sd => 1 + sd.signalStrength / 200
             | none => 1)) 1) := by
  constructor
  · simp [rerankArticles]
  · exact reranker_final_score_formula routingW [articleW]
      (scoreArticle routingW articleW) (by simp [rerankArticles])

/-- `finalDesc` is transitive. -/
theorem finalDesc_trans (a b c : Article) :
    finalDesc a b → finalDesc b c → finalDesc a c := by
  simp only [finalDesc, decide_eq_true_eq]
  exact fun h1 h2 => le_trans h2 h1

/-- `finalDesc` is total. -/
theorem finalDesc_total (a b : Article) : finalDesc a b || finalDesc b a := by
  simp only [finalDesc, Bool.or_eq_true, decide_eq_true_eq]
  exact le_total b.finalScore a.finalScore

/-- C4: The reranker output is a permutation of the scored input, sorted in
descending order of final score, and the sort is stable: two scored articles
with equal final scores that occur in a given relative input order occur in
the same relative order in the output. -/
theorem reranker_stable_sort_descending (arts : List Article)
    (routing : QueryRouting) (a b : Article)
    (heq : a.finalScore = b.finalScore)
    (hsub : [a, b].Sublist (arts.map (scoreArticle routing))) :
    (rerankArticles arts routing).Perm (arts.map (scoreArticle routing)) ∧
    (rerankArticles arts routing).Pairwise
      (fun x y => y.finalScore ≤ x.finalScore) ∧
    [a, b].Sublist (rerankArticles arts routing) := by
  refine ⟨List.mergeSort_perm _ _, ?_, ?_⟩
  · exact (List.sorted_mergeSort finalDesc_trans finalDesc_total _).imp
      (fun h => by simpa [finalDesc] using h)
  · exact List.pair_sublist_mergeSort finalDesc_trans finalDesc_total
      (by simp [finalDesc, heq]) hsub

/-- The witness for C4: two identical articles (hence tied final scores) stay
in input order through the reranker. -/
theorem reranker_stable_sort_descending_witness :
    (scoreArticle routingW articleW).finalScore
      = (scoreArticle routingW articleW).finalScore ∧
    [scoreArticle routingW articleW, scoreArticle routingW articleW].Sublist
      ([articleW, articleW].map (scoreArticle routingW)) ∧
    ((rerankArticles [articleW, articleW] routingW).Perm
        ([articleW, articleW].map (scoreArticle routingW)) ∧
      (rerankArticles [articleW, articleW] routingW).Pairwise
        (fun x y => y.finalScore ≤ x.finalScore) ∧
      [scoreArticle routingW articleW, scoreArticle routingW articleW].Sublist
        (rerankArticles [articleW, articleW] routingW)) := by
  refine ⟨rfl, by simp, ?_⟩
  exact reranker_stable_sort_descending [articleW, articleW] routingW _ _ rfl
    (by simp)

/-- Overwriting an existing key in place makes it the first (hence found)
occurrence of that key. -/
theorem find?_map_overwrite (d : MongoFilter) (k : String) (v : MVal)
    (h : d.any (fun p => p.1 == k) = true) :
    (d.map (fun p => if p.1 == k then (k, v) else p)).find?
      (fun p => p.1 == k) = some (k, v) := by
  induction d with
  | nil => simp at h
  | cons p d ih =>
    by_cases hp : (p.1 == k) = true
    · rw [List.map_cons, if_pos hp, List.find?_cons_of_pos _ (by simp)]
    · have hd : d.any (fun q => q.1 == k) = true := by
        simpa [List.any_cons, hp] using h
      have hp' : (p.1 == k) = false := by simpa using hp
      rw [List.map_cons, if_neg hp, List.find?_cons, hp']
      exact ih hd

/-- Python dict assignment then lookup: after `d[k] = v`, `d[k]` is `v`. -/
theorem dictGet_dictSet (d : MongoFilter) (k : String) (v : MVal) :
    dictGet (dictSet d k v) k = some v := by
  unfold dictGet dictSet
  by_cases h : d.any (fun p => p.1 == k)
  · simp only [h, if_true]
    rw [find?_map_overwrite d k v h]
    rfl
  · simp only [h, Bool.false_eq_true, if_false, List.find?_append]
    have hnone : d.find? (fun p => p.1 == k) = none := by
      rw [List.find?_eq_none]
      intro x hx
      simp only [List.any_eq_true, not_exists, not_and] at h
      simp [h x hx]
    simp [hnone]

/-- C2: With a truthy external sentiment override, `process_query` writes the
override into the routing result and the compiled filter always carries a
top-level `sentiment.classification` equality clause for the override — ANDed
into (or, after the zero-count relaxation, replacing) whatever the
routing-derived filter contained, for every routing result whatsoever. -/
theorem override_forces_sentiment_clause (env : Env) (routing : QueryRouting)
    (topK : ℕ) (ov : String) (h : ov ≠ "") :
    (overrideRouting routing (some ov)).sentimentFilter = some ov ∧
    dictGet (resolveFilterAndCount env (overrideRouting routing (some ov))
        (some ov)).1 "sentiment.classification" = some (.s (.eq ov)) ∧
    (processQuery env routing topK (some ov)).routing.sentimentFilter
      = some ov := by
  have htr : pyTruthyStr (some ov) = true := by simp [pyTruthyStr, h]
  refine ⟨by simp [overrideRouting, htr], ?_,
    by simp [processQuery, overrideRouting, htr]⟩
  unfold resolveFilterAndCount
  simp only [htr, if_true, Option.getD_some]
  split
  · simp [dictGet]
  · exact dictGet_dictSet _ _ _

/-- The witness for C2: a Bearish override on the concrete environment. -/
theorem override_forces_sentiment_clause_witness :
    "Bearish" ≠ "" ∧
    ((overrideRouting routingW (some "Bearish")).sentimentFilter
        = some "Bearish" ∧
      dictGet (resolveFilterAndCount envW
          (overrideRouting routingW (some "Bearish")) (some "Bearish")).1
          "sentiment.classification" = some (.s (.eq "Bearish")) ∧
      (processQuery envW routingW 10 (some "Bearish")).routing.sentimentFilter
        = some "Bearish") :=
  ⟨by decide, override_forces_sentiment_clause envW routingW 10 "Bearish"
    (by decide)⟩

/-- C5: When a truthy override is supplied and the combined
(routing-derived plus override) filter matches zero documents,
`process_query` replaces the filter by the sentiment-only filter on the
override value, recomputes the cardinality against it, and proceeds through
the ordinary strategy branching on the recomputed count (in particular, a
positive recount leaves the zero-count fallback path). -/
theorem zero_count_sentiment_only_recount (env : Env)
    (routing0 : QueryRouting) (topK : ℕ) (ov : String) (hov : ov ≠ "")
    (h0 : countDocuments env
      (dictSet (generateMongodbFilter (overrideRouting routing0 (some ov)))
        "sentiment.classification" (.s (.eq ov))) = 0) :
    resolveFilterAndCount env (overrideRouting routing0 (some ov)) (some ov)
        = ([("sentiment.classification", .s (.eq ov))],
           countDocuments env [("sentiment.classification", .s (.eq ov))]) ∧
    (processQuery env routing0 topK (some ov)).meta.filteredCount
        = countDocuments env [("sentiment.classification", .s (.eq ov))] ∧
    (processQuery env routing0 topK (some ov)).meta.strategyUsed
        = selectStrategy
            (countDocuments env [("sentiment.classification", .s (.eq ov))])
            env.maxFilterIds ∧
    (0 < countDocuments env [("sentiment.classification", .s (.eq ov))] →
      (processQuery env routing0 topK (some ov)).meta.strategyUsed
        ≠ .vector_search_fallback) := by
  have htr : pyTruthyStr (some ov) = true := by simp [pyTruthyStr, hov]
  have hres : resolveFilterAndCount env (overrideRouting routing0 (some ov))
      (some ov)
      = ([("sentiment.classification", .s (.eq ov))],
         countDocuments env [("sentiment.classification", .s (.eq ov))]) := by
    unfold resolveFilterAndCount
    simp [htr, h0]
  refine ⟨hres, ?_, ?_, ?_⟩
  · simp [processQuery, hres]
  · simp [processQuery, hres]
  · intro hpos
    simp only [processQuery, hres]
    unfold selectStrategy
    split_ifs <;> simp_all

/-- A routing whose compiled filter (INFY) misses every stored article. -/
def routingW2 : QueryRouting :=
  { entities := []
    sectors := []
    stockSymbols := ["INFY"]
    sentimentFilter := none
    refinedQuery := "infosys outlook"
    strategy := .DIRECT_ENTITY
    confidence := 4/5
    reasoning := "direct entity query" }

/-- The witness for C5: the combined INFY+.Bearish filter matches nothing in
the concrete environment, the sentiment-only recount finds one article. -/
theorem zero_count_sentiment_only_recount_witness :
    "Bearish" ≠ "" ∧
    countDocuments envW
      (dictSet (generateMongodbFilter (overrideRouting routingW2 (some "Bearish")))
        "sentiment.classification" (.s (.eq "Bearish"))) = 0 ∧
    (resolveFilterAndCount envW (overrideRouting routingW2 (some "Bearish"))
        (some "Bearish")
        = ([("sentiment.classification", .s (.eq "Bearish"))],
           countDocuments envW
             [("sentiment.classification", .s (.eq "Bearish"))]) ∧
      (processQuery envW routingW2 10 (some "Bearish")).meta.filteredCount
        = countDocuments envW
            [("sentiment.classification", .s (.eq "Bearish"))] ∧
      (processQuery envW routingW2 10 (some "Bearish")).meta.strategyUsed
        = selectStrategy
            (countDocuments envW
              [("sentiment.classification", .s (.eq "Bearish"))])
            envW.maxFilterIds ∧
      (0 < countDocuments envW
          [("sentiment.classification", .s (.eq "Bearish"))] →
        (processQuery envW routingW2 10 (some "Bearish")).meta.strategyUsed
          ≠ .vector_search_fallback)) :=
  ⟨by decide, by decide,
    zero_count_sentiment_only_recount envW routingW2 10 "Bearish" (by decide)
      (by decide)⟩

/-- Whether a `route_query` outcome is the caller-fault validation error
class. -/
def isValidationError : Except RouteErr QueryRouting → Bool
  | .error (.validationError _) => true
  | _ => false

/-- A structured LLM output whose sentiment filter is present but not one of
the three enum values. -/
def badSentimentOutput : RawRouterOutput :=
  { strategy := .SENTIMENT_DRIVEN
    entities := []
    stockSymbols := []
    sectors := []
    regulators := []
    sentimentFilter := some "bullish"
    temporalScope := none
    refinedQuery := "market sentiment today"
    confidence := 9/10
    reasoning := "sentiment query" }

/-- The counterexample to C6: on a malformed sentiment filter, `route_query`
raises `LLMServiceError` (the ServiceError class), not a `ValidationError` —
the pydantic validation failure happens inside the `try` block whose
`except Exception` clause re-raises everything as
`LLMServiceError(f"Query routing failed: ...")`. -/
theorem malformed_sentiment_error_class_counterexample :
    routeQuery id "bullish news" badSentimentOutput
      = .error (.llmServiceError
          ("Query routing failed: " ++
           "Sentiment filter must be one of [Bullish, Bearish, Neutral]")) ∧
    isValidationError (routeQuery id "bullish news" badSentimentOutput)
      = false := by
  constructor
  · rfl
  · rfl

/-- C6 amended: for every LLM routing output whose sentiment_filter is
present but not one of Bullish/Bearish/Neutral (and a non-empty query),
`route_query` fails with `LLMServiceError` wrapping the validation message —
the ServiceError class, not ValidationError. -/
theorem malformed_sentiment_wrapped_as_service_error
    (setOrder : List String → List String) (query : String)
    (out : RawRouterOutput) (v : String)
    (hq : ¬(query = "" ∨ pyStrip query = ""))
    (hv : out.sentimentFilter = some v)
    (h1 : v ≠ "Bullish") (h2 : v ≠ "Bearish") (h3 : v ≠ "Neutral") :
    routeQuery setOrder query out
      = .error (.llmServiceError
          ("Query routing failed: " ++
           "Sentiment filter must be one of [Bullish, Bearish, Neutral]")) := by
  have hval : modelValidate out
      = .error "Sentiment filter must be one of [Bullish, Bearish, Neutral]" := by
    unfold modelValidate
    rw [hv]
    simp [validateSentimentFilter, h1, h2, h3]
  unfold routeQuery
  rw [if_neg hq, hval]

/-- The witness for C6: the concrete malformed output run through the amended
theorem. -/
theorem malformed_sentiment_wrapped_as_service_error_witness :
    ¬("bullish news" = "" ∨ pyStrip "bullish news" = "") ∧
    badSentimentOutput.sentimentFilter = some "bullish" ∧
    "bullish" ≠ "Bullish" ∧ "bullish" ≠ "Bearish" ∧ "bullish" ≠ "Neutral" ∧
    routeQuery id "bullish news" badSentimentOutput
      = .error (.llmServiceError
          ("Query routing failed: " ++
           "Sentiment filter must be one of [Bullish, Bearish, Neutral]")) :=
  ⟨by decide, by decide, by decide, by decide, by decide,
    malformed_sentiment_wrapped_as_service_error id "bullish news"
      badSentimentOutput "bullish" (by decide) (by decide) (by decide)
      (by decide) (by decide)⟩

/-- A structured LLM output carrying two distinct stock symbols. -/
def twoSymbolOutput : RawRouterOutput :=
  { strategy := .DIRECT_ENTITY
    entities := []
    stockSymbols := ["TCS", "INFY"]
    sectors := []
    regulators := []
    sentimentFilter := none
    temporalScope := none
    refinedQuery := "tcs and infosys"
    confidence := 1
    reasoning := "two tickers" }

/-- The counterexample to C7: the stock-symbol list is built with
`list(set(...))`, whose enumeration order is unspecified (CPython hash
order); `List.reverse` is an admissible enumeration (a permutation of the
set contents), and under it the output is not in first-seen order. -/
theorem stock_symbols_first_seen_order_counterexample :
    (∀ xs : List String, (List.reverse xs).Perm xs) ∧
    (validateAndEnrich List.reverse twoSymbolOutput).stockSymbols
      = ["INFY", "TCS"] ∧
    (validateAndEnrich List.reverse twoSymbolOutput).stockSymbols
      ≠ ["TCS", "INFY"] := by
  exact ⟨fun xs => xs.reverse_perm, by decide, by decide⟩

/-- C7 amended: for every admissible set-enumeration order, the enriched
stock-symbol list is a duplicate-free permutation of the uppercased, trimmed,
deduplicated input symbols — the contents are as claimed, but the order is
unspecified rather than first-seen. -/
theorem stock_symbols_dedup_upper_unordered
    (setOrder : List String → List String)
    (hperm : ∀ xs : List String, (setOrder xs).Perm xs)
    (raw : RawRouterOutput) :
    ((validateAndEnrich setOrder raw).stockSymbols).Perm
        (((raw.stockSymbols.filter (fun s => s ≠ "")).map
          (fun s => pyStrip (pyUpper s))).dedup) ∧
    ((validateAndEnrich setOrder raw).stockSymbols).Nodup := by
  have h := hperm (((raw.stockSymbols.filter (fun s => s ≠ "")).map
    (fun s => pyStrip (pyUpper s))).dedup)
  exact ⟨h, h.symm.nodup (List.nodup_dedup _)⟩

/-- The witness for C7: the identity enumeration order on the concrete
two-symbol output. -/
theorem stock_symbols_dedup_upper_unordered_witness :
    ((validateAndEnrich id twoSymbolOutput).stockSymbols).Perm
        (((twoSymbolOutput.stockSymbols.filter (fun s => s ≠ "")).map
          (fun s => pyStrip (pyUpper s))).dedup) ∧
    ((validateAndEnrich id twoSymbolOutput).stockSymbols).Nodup :=
  stock_symbols_dedup_upper_unordered id (fun xs => List.Perm.refl xs)
    twoSymbolOutput

/-- The counterexample to C8: `_format_results` computes
`similarity = 1 - distance` with no clamping, and cosine distances range over
`[0, 2]`, so a reported distance of `3/2` yields similarity `-1/2 ∉ [0,1]`. -/
theorem similarity_unit_range_counterexample :
    formatResults ["a1"] [3/2] = [⟨"a1", -(1/2), 3/2⟩] ∧
    ¬(0 ≤ (-(1/2) : ℚ)) := by
  constructor
  · simp [formatResults]
    norm_num
  · norm_num

/-- C8 amended: every candidate returned by `_format_results` has
`similarity = 1 - distance` exactly; the similarity lies in `[0,1]` only
under the extra assumption that the reported distance lies in `[0,1]`
(for cosine distances in `[0,2]` it lies in `[-1,1]`). -/
theorem similarity_eq_one_minus_distance (ids : List String)
    (distances : List ℚ) (c : VectorCandidate)
    (h : c ∈ formatResults ids distances) :
    c.similarity = 1 - c.distance ∧
    (0 ≤ c.distance → c.distance ≤ 1 →
      0 ≤ c.similarity ∧ c.similarity ≤ 1) ∧
    (0 ≤ c.distance → c.distance ≤ 2 →
      -1 ≤ c.similarity ∧ c.similarity ≤ 1) := by
  unfold formatResults at h
  split at h
  · simp at h
  · rw [List.mem_map] at h
    obtain ⟨p, -, hp⟩ := h
    subst hp
    refine ⟨rfl, ?_, ?_⟩ <;> intro h1 h2 <;>
      exact ⟨by simpa using by linarith, by simpa using by linarith⟩

/-- The witness for C8: a well-behaved candidate at distance `1/2`. -/
theorem similarity_eq_one_minus_distance_witness :
    (⟨"a1", 1/2, 1/2⟩ : VectorCandidate) ∈ formatResults ["a1"] [1/2] ∧
    ((⟨"a1", 1/2, 1/2⟩ : VectorCandidate).similarity
        = 1 - (⟨"a1", 1/2, 1/2⟩ : VectorCandidate).distance ∧
      (0 ≤ (⟨"a1", 1/2, 1/2⟩ : VectorCandidate).distance →
        (⟨"a1", 1/2, 1/2⟩ : VectorCandidate).distance ≤ 1 →
        0 ≤ (⟨"a1", 1/2, 1/2⟩ : VectorCandidate).similarity ∧
          (⟨"a1", 1/2, 1/2⟩ : VectorCandidate).similarity ≤ 1) ∧
      (0 ≤ (⟨"a1", 1/2, 1/2⟩ : VectorCandidate).distance →
        (⟨"a1", 1/2, 1/2⟩ : VectorCandidate).distance ≤ 2 →
        -1 ≤ (⟨"a1", 1/2, 1/2⟩ : VectorCandidate).similarity ∧
          (⟨"a1", 1/2, 1/2⟩ : VectorCandidate).similarity ≤ 1)) := by
  have hmem : (⟨"a1", 1/2, 1/2⟩ : VectorCandidate) ∈ formatResults ["a1"] [1/2] := by
    simp [formatResults]
    norm_num
  exact ⟨hmem, similarity_eq_one_minus_distance ["a1"] [1/2] _ hmem⟩

/-- Whether the sentiment signal stored on an article (if any) is
nonnegative. -/
def sentimentSignalNonneg (a : Article) : Bool :=
  match a.sentiment with
  | some sd => decide (0 ≤ sd.signalStrength)
  | none => true

/-- Every hit of an unrestricted search comes from the ranking. -/
theorem mem_vectorSearch {env : Env} {k : ℕ} {h : VectorHit}
    (hm : h ∈ vectorSearch env k) : h ∈ env.ranking :=
  List.mem_of_mem_take hm

/-- Every hit of a restricted search comes from the ranking. -/
theorem mem_searchByIds {env : Env} {ids : List String} {k : ℕ} {h : VectorHit}
    (hm : h ∈ searchByIds env ids k) : h ∈ env.ranking := by
  unfold searchByIds at hm
  split at hm
  · simp at hm
  · exact List.mem_of_mem_filter (List.mem_of_mem_take hm)

/-- Every hit of the fallback branch comes from the ranking. -/
theorem mem_fallbackResults {env : Env} {k : ℕ} {ov : Option String}
    {h : VectorHit} (hm : h ∈ fallbackResults env k ov) : h ∈ env.ranking := by
  unfold fallbackResults at hm
  split at hm
  · exact mem_vectorSearch (List.mem_of_mem_filter (List.mem_of_mem_take hm))
  · exact mem_vectorSearch hm

/-- Every hit of the filter-first branch comes from the ranking. -/
theorem mem_mongoFilterFirstResults {env : Env} {mf : MongoFilter} {k : ℕ}
    {h : VectorHit} (hm : h ∈ mongoFilterFirstResults env mf k) :
    h ∈ env.ranking :=
  mem_searchByIds hm

/-- Every hit of the search-first branch comes from the ranking. -/
theorem mem_vectorSearchFirstResults {env : Env} {mf : MongoFilter} {k : ℕ}
    {h : VectorHit} (hm : h ∈ vectorSearchFirstResults env mf k) :
    h ∈ env.ranking :=
  mem_vectorSearch (List.mem_of_mem_filter (List.mem_of_mem_take hm))

/-- Every hit any branch produces comes from the ranking. -/
theorem mem_computeVectorResults {env : Env} {mf : MongoFilter} {fc k : ℕ}
    {ov : Option String} {h : VectorHit}
    (hm : h ∈ computeVectorResults env mf fc k ov) : h ∈ env.ranking := by
  unfold computeVectorResults at hm
  split at hm
  · exact mem_fallbackResults hm
  · split at hm
    · exact mem_mongoFilterFirstResults hm
    · exact mem_vectorSearchFirstResults hm

/-- The attached score is a similarity from the results (or the `0.0`
default), hence within the similarity bounds. -/
theorem scoreMapGet_bounds (vr : List VectorHit) (aid : String)
    (hv : ∀ h ∈ vr, 0 ≤ h.similarity ∧ h.similarity ≤ 1) :
    0 ≤ scoreMapGet vr aid ∧ scoreMapGet vr aid ≤ 1 := by
  unfold scoreMapGet
  split
  case h_1 h heq =>
    exact hv h (List.mem_reverse.mp (List.mem_of_find?_eq_some heq))
  case h_2 => norm_num

/-- Every hydrated article is a stored document. -/
theorem mem_getArticlesByIds {env : Env} {ids : List String} {a : Article}
    (ha : a ∈ getArticlesByIds env ids) : a ∈ env.docs := by
  unfold getArticlesByIds at ha
  split at ha
  · simp at ha
  · rw [List.mem_filterMap] at ha
    obtain ⟨aid, -, hfind⟩ := ha
    exact List.mem_reverse.mp (List.mem_of_find?_eq_some hfind)

/-- The strategy score always comes from the fixed seven-value table. -/
theorem calculateStrategyScore_mem (article : Article)
    (routing : QueryRouting) :
    calculateStrategyScore article routing
      ∈ ([0, 3/10, 1/2, 7/10, 4/5, 9/10, 1] : List ℚ) := by
  unfold calculateStrategyScore
  cases routing.strategy <;> dsimp only <;> (repeat' split) <;> norm_num

/-- The strategy score lies in `[0,1]`. -/
theorem calculateStrategyScore_bounds (article : Article)
    (routing : QueryRouting) :
    0 ≤ calculateStrategyScore article routing ∧
      calculateStrategyScore article routing ≤ 1 := by
  have h := calculateStrategyScore_mem article routing
  simp only [List.mem_cons, List.not_mem_nil, or_false] at h
  rcases h with h | h | h | h | h | h | h <;> rw [h] <;> norm_num

/-- The score attached to any article by `scoreArticle` lies in `[0,1]` when
the attached similarity lies in `[0,1]` and the stored sentiment signal is
nonnegative. -/
theorem scoreArticle_bounds (routing : QueryRouting) (b : Article)
    (hrel : 0 ≤ b.relevanceScore ∧ b.relevanceScore ≤ 1)
    (hsigb : sentimentSignalNonneg b = true) :
    0 ≤ (scoreArticle routing b).finalScore ∧
      (scoreArticle routing b).finalScore ≤ 1 := by
  obtain ⟨h0, h1⟩ := calculateStrategyScore_bounds b routing
  have hbase : 0 ≤ b.relevanceScore * (1/2) +
      calculateStrategyScore b routing * (1/2) := by
    linarith [hrel.1]
  cases hs : b.sentiment with
  | none =>
    constructor
    · simp only [scoreArticle, hs]
      exact le_min hbase (by norm_num)
    · simp only [scoreArticle, hs]
      exact min_le_right _ _
  | some sd =>
    have hsd : 0 ≤ sd.signalStrength := by
      unfold sentimentSignalNonneg at hsigb
      rw [hs] at hsigb
      simpa using hsigb
    constructor
    · simp only [scoreArticle, hs, applySentimentBoost]
      exact le_min (mul_nonneg hbase (by linarith)) (by norm_num)
    · simp only [scoreArticle, hs, applySentimentBoost]
      exact min_le_right _ _

/-- The `min(. , 1.0)` cap bounds every scored article's final score by `1`
with no assumption at all. -/
theorem scoreArticle_le_one (routing : QueryRouting) (b : Article) :
    (scoreArticle routing b).finalScore ≤ 1 := by
  cases hs : b.sentiment with
  | none =>
    simp only [scoreArticle, hs]
    exact min_le_right _ _
  | some sd =>
    simp only [scoreArticle, hs, applySentimentBoost]
    exact min_le_right _ _

/-- The invariants of the rerank pipeline: unconditionally, every emitted
article has a final score capped at `1` and a table strategy score; its final
score is additionally nonnegative when the attached similarities lie in
`[0,1]` and the stored sentiment signals are nonnegative. -/
theorem reranked_pipeline_invariants (env : Env) (routing : QueryRouting)
    (vr : List VectorHit) (topK : ℕ) :
    ∀ a ∈ (rerankArticles (attachScores
        (getArticlesByIds env (vr.map (fun x => x.articleId))) vr)
        routing).take topK,
      a.finalScore ≤ 1 ∧
      a.strategyScore ∈ ([0, 3/10, 1/2, 7/10, 4/5, 9/10, 1] : List ℚ) ∧
      ((∀ h ∈ vr, 0 ≤ h.similarity ∧ h.similarity ≤ 1) →
        (∀ x ∈ env.docs, sentimentSignalNonneg x = true) →
        0 ≤ a.finalScore) := by
  intro a ha
  have ha1 := List.mem_of_mem_take ha
  rw [rerankArticles, List.mem_mergeSort, List.mem_map] at ha1
  obtain ⟨b, hb, rfl⟩ := ha1
  rw [attachScores, List.mem_map] at hb
  obtain ⟨c, hc, rfl⟩ := hb
  refine ⟨scoreArticle_le_one _ _,
    by simpa only [scoreArticle] using
      (calculateStrategyScore_mem
        { c with relevanceScore := scoreMapGet vr c.id } routing), ?_⟩
  intro hv hsig
  have hcdocs : c ∈ env.docs := mem_getArticlesByIds hc
  have hrel := scoreMapGet_bounds vr c.id hv
  exact (scoreArticle_bounds routing
    { c with relevanceScore := scoreMapGet vr c.id } hrel (hsig c hcdocs)).1

/-- An article with no matching metadata and no sentiment. -/
def articleN : Article :=
  { id := "n1"
    companies := []
    sectors := []
    regulators := []
    impactedStockSymbols := []
    sentiment := none
    hasCrossImpacts := false }

/-- A DIRECT_ENTITY routing on TCS that matches nothing stored. -/
def routingN : QueryRouting :=
  { entities := []
    sectors := []
    stockSymbols := ["TCS"]
    sentimentFilter := none
    refinedQuery := "tcs results"
    strategy := .DIRECT_ENTITY
    confidence := 4/5
    reasoning := "direct entity query" }

/-- An environment whose vector index reports the unclamped similarity `-1`
(cosine distance `2`) for the stored article. -/
def envN : Env :=
  { docs := [articleN]
    ranking := [{ articleId := "n1", similarity := -1 }] }

/-- The vector results `process_query` computes on `envN`/`routingN`. -/
def vrN : List VectorHit :=
  computeVectorResults envN
    (resolveFilterAndCount envN routingN none).1
    (resolveFilterAndCount envN routingN none).2 10 none

/-- The hydrated article with the negative similarity attached. -/
def bN : Article := { articleN with relevanceScore := -1 }

/-- The counterexample to C9: a normal execution of `process_query` (the
zero-count fallback branch, no override) whose vector index reports the
unclamped similarity `-1` returns an article with
`final_score = min(-1*0.5 + 0*0.5, 1.0) = -1/2 < 0`, so the claimed
unconditional `final_score ∈ [0,1]` fails. -/
theorem process_query_negative_final_score_counterexample :
    (processQuery envN routingN 10 none).articles
      = [({ articleN with
            relevanceScore := -1, strategyScore := 0, finalScore := -(1/2) }
          : Article)] ∧
    ¬(0 ≤ (-(1/2) : ℚ)) := by
  have hX : attachScores
      (getArticlesByIds envN (vrN.map (fun x => x.articleId))) vrN = [bN] := by
    decide
  have harts : (processQuery envN routingN 10 none).articles
      = (rerankArticles [bN] routingN).take 10 :=
    congrArg (fun l => (rerankArticles l routingN).take 10) hX
  have hcs : calculateStrategyScore bN routingN = 0 := by decide
  have hsent : bN.sentiment = none := rfl
  have hrel : bN.relevanceScore = -1 := rfl
  have hscore : scoreArticle routingN bN
      = { articleN with
          relevanceScore := -1, strategyScore := 0, finalScore := -(1/2) } := by
    simp only [scoreArticle, hsent, hcs, hrel]
    rw [min_eq_left (by norm_num : (-1 : ℚ) * (1/2) + 0 * (1/2) ≤ 1)]
    simp only [bN, articleN, Article.mk.injEq]
    norm_num
  constructor
  · rw [harts]
    simp [rerankArticles, hscore]
  · norm_num

/-- C9 amended: every normal return of `process_query` hands back at most
`top_k` articles, each with `final_score ≤ 1` and a strategy score from the
fixed table `{0, 0.3, 0.5, 0.7, 0.8, 0.9, 1}` — unconditionally; the lower
bound `0 ≤ final_score` (hence `final_score ∈ [0,1]`) holds additionally
whenever the vector index reports similarities in `[0,1]` and stored
sentiment signals are nonnegative, which the unclamped `1 - distance`
conversion does not itself guarantee. -/
theorem process_query_output_invariants (env : Env) (routing0 : QueryRouting)
    (topK : ℕ) (ov : Option String) :
    (processQuery env routing0 topK ov).articles.length ≤ topK ∧
    (∀ a ∈ (processQuery env routing0 topK ov).articles,
      a.finalScore ≤ 1 ∧
      a.strategyScore ∈ ([0, 3/10, 1/2, 7/10, 4/5, 9/10, 1] : List ℚ)) ∧
    ((∀ h ∈ env.ranking, 0 ≤ h.similarity ∧ h.similarity ≤ 1) →
      (∀ x ∈ env.docs, sentimentSignalNonneg x = true) →
      ∀ a ∈ (processQuery env routing0 topK ov).articles,
        0 ≤ a.finalScore ∧ a.finalScore ≤ 1) := by
  have hpipe := reranked_pipeline_invariants env (overrideRouting routing0 ov)
    (computeVectorResults env
      (resolveFilterAndCount env (overrideRouting routing0 ov) ov).1
      (resolveFilterAndCount env (overrideRouting routing0 ov) ov).2
      topK ov)
    topK
  refine ⟨List.length_take_le _ _, ?_, ?_⟩
  · intro a ha
    exact ⟨(hpipe a ha).1, (hpipe a ha).2.1⟩
  · intro hrank hsig a ha
    exact ⟨(hpipe a ha).2.2
      (fun h hh => hrank h (mem_computeVectorResults hh)) hsig,
      (hpipe a ha).1⟩

/-- The witness for C9: the concrete well-behaved environment, with the
conditional lower bound discharged on it. -/
theorem process_query_output_invariants_witness :
    (∀ h ∈ envW.ranking, 0 ≤ h.similarity ∧ h.similarity ≤ 1) ∧
    (∀ a ∈ envW.docs, sentimentSignalNonneg a = true) ∧
    (processQuery envW routingW 10 none).articles.length ≤ 10 ∧
    (∀ a ∈ (processQuery envW routingW 10 none).articles,
      a.finalScore ≤ 1 ∧
      a.strategyScore ∈ ([0, 3/10, 1/2, 7/10, 4/5, 9/10, 1] : List ℚ)) ∧
    (∀ a ∈ (processQuery envW routingW 10 none).articles,
      0 ≤ a.finalScore ∧ a.finalScore ≤ 1) :=
  ⟨by decide, by decide,
    (process_query_output_invariants envW routingW 10 none).1,
    (process_query_output_invariants envW routingW 10 none).2.1,
    (process_query_output_invariants envW routingW 10 none).2.2
      (by decide) (by decide)⟩

end NewsRestructure
